import Mathlib

/-!
Verification development for the salsabil recruitment backend.

The definitions below are a shallow embedding of the core of the system:
  * `src/pdf_generator.py` : verification-code generation (SHA-256 based),
    the two document renderers and the two filename generators;
  * `src/models.py`        : the two phase-transition operations of the
    application workflow state machine;
  * `src/database.py`      : the `document_verifications` registry table.

Machine integers are modelled as `Nat` with explicit reduction modulo `2^32`
(resp. `2^8`) where the source relies on fixed-width arithmetic.  The
nondeterministic inputs of the Python code (wall-clock timestamps,
`secrets.token_hex` salts, filesystem failures) are passed as explicit
parameters.
-/

/-! ## SHA-256 (shallow embedding of Python's `hashlib.sha256(...).hexdigest()`) -/

/-- Truncation to a 32-bit word. -/
def w32 (n : Nat) : Nat := n % 4294967296

/-- Truncation to a byte. -/
def w8 (n : Nat) : Nat := n % 256

/-- 32-bit rotate right. The argument `x` is assumed `< 2^32`. -/
def rotr (n x : Nat) : Nat := w32 ((x >>> n) ||| (x <<< (32 - n)))

/-- The 64 SHA-256 round constants (FIPS 180-4, written in decimal). -/
def sha256K : List Nat :=
  [1116352408, 1899447441, 3049323471, 3921009573,
   961987163, 1508970993, 2453635748, 2870763221,
   3624381080, 310598401, 607225278, 1426881987,
   1925078388, 2162078206, 2614888103, 3248222580,
   3835390401, 4022224774, 264347078, 604807628,
   770255983, 1249150122, 1555081692, 1996064986,
   2554220882, 2821834349, 2952996808, 3210313671,
   3336571891, 3584528711, 113926993, 338241895,
   666307205, 773529912, 1294757372, 1396182291,
   1695183700, 1986661051, 2177026350, 2456956037,
   2730485921, 2820302411, 3259730800, 3345764771,
   3516065817, 3600352804, 4094571909, 275423344,
   430227734, 506948616, 659060556, 883997877,
   958139571, 1322822218, 1537002063, 1747873779,
   1955562222, 2024104815, 2227730452, 2361852424,
   2428436474, 2756734187, 3204031479, 3329325298]

/-- The eight working words of the SHA-256 state. -/
structure Sha256State where
  a : Nat
  b : Nat
  c : Nat
  d : Nat
  e : Nat
  f : Nat
  g : Nat
  h : Nat
  deriving DecidableEq

/-- SHA-256 initial hash value (FIPS 180-4, written in decimal). -/
def sha256H0 : Sha256State :=
  ⟨1779033703, 3144134277, 1013904242, 2773480762,
   1359893119, 2600822924, 528734635, 1541459225⟩

def smallSigma0 (x : Nat) : Nat := (rotr 7 x) ^^^ (rotr 18 x) ^^^ (x >>> 3)
def smallSigma1 (x : Nat) : Nat := (rotr 17 x) ^^^ (rotr 19 x) ^^^ (x >>> 10)
def bigSigma0 (x : Nat) : Nat := (rotr 2 x) ^^^ (rotr 13 x) ^^^ (rotr 22 x)
def bigSigma1 (x : Nat) : Nat := (rotr 6 x) ^^^ (rotr 11 x) ^^^ (rotr 25 x)

/-- Bitwise choice: `(x ∧ y) ⊕ (¬x ∧ z)` within 32 bits. -/
def chFn (x y z : Nat) : Nat := (x &&& y) ^^^ ((x ^^^ 0xffffffff) &&& z)

/-- Bitwise majority. -/
def majFn (x y z : Nat) : Nat := (x &&& y) ^^^ (x &&& z) ^^^ (y &&& z)

/-- Big-endian packing of bytes into 32-bit words. -/
def toWords : List Nat → List Nat
  | a :: b :: c :: d :: rest => (a * 16777216 + b * 65536 + c * 256 + d) :: toWords rest
  | _ => []

/-- Extend the 16 block words to the 64-word message schedule (`k` more words). -/
def extendSchedule (w : List Nat) : Nat → List Nat
  | 0 => w
  | k + 1 =>
    let n := w.length
    let nw := w32 (w.getD (n - 16) 0 + smallSigma0 (w.getD (n - 15) 0) +
                   w.getD (n - 7) 0 + smallSigma1 (w.getD (n - 2) 0))
    extendSchedule (w ++ [nw]) k

/-- One SHA-256 round. -/
def sha256Round (s : Sha256State) (kw : Nat × Nat) : Sha256State :=
  let t1 := w32 (s.h + bigSigma1 s.e + chFn s.e s.f s.g + kw.1 + kw.2)
  let t2 := w32 (bigSigma0 s.a + majFn s.a s.b s.c)
  ⟨w32 (t1 + t2), s.a, s.b, s.c, w32 (s.d + t1), s.e, s.f, s.g⟩

/-- Compression of one 64-byte block into the running state. -/
def compressBlock (hs : Sha256State) (block : List Nat) : Sha256State :=
  let ws := extendSchedule (toWords block) 48
  let r := (sha256K.zip ws).foldl sha256Round hs
  ⟨w32 (hs.a + r.a), w32 (hs.b + r.b), w32 (hs.c + r.c), w32 (hs.d + r.d),
   w32 (hs.e + r.e), w32 (hs.f + r.f), w32 (hs.g + r.g), w32 (hs.h + r.h)⟩

/-- SHA-256 padding: `0x80`, zeros to 56 mod 64, then the 64-bit big-endian bit length. -/
def padMessage (msg : List Nat) : List Nat :=
  let len := msg.length
  let bitLen := len * 8
  let z := (64 + 56 - ((len + 1) % 64)) % 64
  msg ++ [0x80] ++ List.replicate z 0 ++
    [w8 (bitLen >>> 56), w8 (bitLen >>> 48), w8 (bitLen >>> 40), w8 (bitLen >>> 32),
     w8 (bitLen >>> 24), w8 (bitLen >>> 16), w8 (bitLen >>> 8), w8 bitLen]

/-- Split a list into `n` successive 64-element chunks. -/
def chunk64 : Nat → List Nat → List (List Nat)
  | 0, _ => []
  | n + 1, l => l.take 64 :: chunk64 n (l.drop 64)

/-- The SHA-256 digest (eight 32-bit words) of a byte string. -/
def sha256digest (msg : List Nat) : Sha256State :=
  let p := padMessage msg
  (chunk64 (p.length / 64) p).foldl compressBlock sha256H0

/-- The sixteen lowercase hexadecimal digits, in order. -/
def hexDigits : List Char := "0123456789abcdef".toList

/-- The hexadecimal digit of `n % 16`. -/
def hexChar (n : Nat) : Char := hexDigits.getD (n % 16) '0'

/-- Eight hex characters of a 32-bit word, most significant nibble first. -/
def wordHex (x : Nat) : List Char :=
  [hexChar (x >>> 28), hexChar (x >>> 24), hexChar (x >>> 20), hexChar (x >>> 16),
   hexChar (x >>> 12), hexChar (x >>> 8), hexChar (x >>> 4), hexChar x]

/-- The 64 characters of Python's `hashlib.sha256(bytes).hexdigest()`. -/
def sha256hexChars (msg : List Nat) : List Char :=
  let d := sha256digest msg
  wordHex d.a ++ wordHex d.b ++ wordHex d.c ++ wordHex d.d ++
  wordHex d.e ++ wordHex d.f ++ wordHex d.g ++ wordHex d.h

/-- `hashlib.sha256(bytes).hexdigest()` as a string. -/
def sha256hex (msg : List Nat) : String := String.mk (sha256hexChars msg)

/-- UTF-8 encoding of one character (Python's `str.encode()`). -/
def utf8Bytes (c : Char) : List Nat :=
  let n := c.toNat
  if n < 0x80 then [n]
  else if n < 0x800 then
    [0xC0 ||| (n >>> 6), 0x80 ||| (n &&& 0x3F)]
  else if n < 0x10000 then
    [0xE0 ||| (n >>> 12), 0x80 ||| ((n >>> 6) &&& 0x3F), 0x80 ||| (n &&& 0x3F)]
  else
    [0xF0 ||| (n >>> 18), 0x80 ||| ((n >>> 12) &&& 0x3F),
     0x80 ||| ((n >>> 6) &&& 0x3F), 0x80 ||| (n &&& 0x3F)]

/-- UTF-8 bytes of a string (Python's `str.encode()`). -/
def strBytes (s : String) : List Nat := (s.toList.map utf8Bytes).flatten

/-! ## Verification codes (`src/pdf_generator.py`, `generate_verification_code`)

The source draws `timestamp = datetime.now().isoformat()` and
`random_salt = secrets.token_hex(16)`; both are nondeterministic inputs and
are therefore passed as explicit parameters here. -/

/-- The string hashed by `generate_verification_code`:
`f"{application_id}-{document_type}-{timestamp}-{random_salt}"`. -/
def verification_data (application_id : Nat) (document_type timestamp random_salt : String) :
    String :=
  toString application_id ++ "-" ++ document_type ++ "-" ++ timestamp ++ "-" ++ random_salt

/-- `generate_verification_code`: SHA-256 of the data string, first 16 hex
characters, uppercased (`verification_hash[:16].upper()`). -/
def generate_verification_code (application_id : Nat)
    (document_type timestamp random_salt : String) : String :=
  String.mk
    (((sha256hexChars
        (strBytes (verification_data application_id document_type timestamp random_salt))).take
      16).map Char.toUpper)

/-! ## Verification registry (`src/database.py`, table `document_verifications`)

Only the table declaration is under `src/`; the INSERT/SELECT statements that
issue and look up codes live in the application layer outside `src/`, so they
are modelled from the spec (§4.1) below. -/

/-- One row of the `document_verifications` table (`src/database.py`). -/
structure VerificationRecord where
  verification_code : String
  application_id : Nat
  document_type : String
  candidate_name : String
  job_title : String
  issue_date : String
  pdf_path : Option String
  status : String
  deriving DecidableEq

/-- Modelled from the spec: the registry `issue` persistence step, whose
INSERT statement is not under `src/` (only the `document_verifications`
table with its `verification_code TEXT UNIQUE NOT NULL` column is, in
`src/database.py`).  Per §4.1 it records the bound metadata and fails with
`GenerationError` only on persistence failure; the UNIQUE constraint makes
an insert of an already-present code such a failure. -/
def issue_record (reg : List VerificationRecord) (code : String) (appId : Nat)
    (docType cname jtitle idate : String) (pdf : Option String) :
    Except String (List VerificationRecord) :=
  if reg.any (fun r => r.verification_code = code) then
    Except.error "GenerationError"
  else
    Except.ok
      ({ verification_code := code, application_id := appId, document_type := docType,
         candidate_name := cname, job_title := jtitle, issue_date := idate,
         pdf_path := pdf, status := "valide" } :: reg)

/-- Modelled from the spec: the registry `lookup` query (`SELECT ... WHERE
verification_code = ?`), not under `src/`.  String equality gives the spec's
case-sensitive exact match; `none` is the spec's `NotFound`. -/
def lookup_code (reg : List VerificationRecord) (code : String) :
    Option VerificationRecord :=
  reg.find? (fun r => r.verification_code = code)

/-! ## Applications and the two-phase workflow (`src/models.py`) -/

/-- The workflow-relevant columns of one `applications` row
(`src/database.py`), plus the candidate identity used by the generated
documents. -/
structure Application where
  id : Nat
  prenom : String
  nom : String
  workflow_phase : String
  phase1_status : String
  phase1_date : Option String
  interview_date : Option String
  interview_invitation_pdf : Option String
  phase2_status : Option String
  phase2_date : Option String
  rejection_reason : Option String
  acceptance_letter_pdf : Option String
  status : String
  deriving DecidableEq

/-- Observable outcome of one `update_phase1_status` call: the new row, whether
an invitation PDF was generated and attached, and the verification code passed
to the renderer (if any). -/
structure Phase1Result where
  app : Application
  docGenerated : Bool
  embeddedCode : Option String
  deriving DecidableEq

/-- The status literal the source stores when an interview is scheduled
(`src/models.py` line 448); the spec glosses it in English as
"interview scheduled". -/
def statusInterviewScheduled : String := "interview programmé"

/-- The status literal the source stores on rejection (`src/models.py`
lines 510 and 548); the spec glosses it as "rejected". -/
def statusRejected : String := "rejetée"

/-- The status literal the source stores on final acceptance (`src/models.py`
line 538); the spec glosses it as "accepted". -/
def statusAccepted : String := "acceptée"

/-- `update_phase1_status` (`src/models.py` lines 425-515).

The three `datetime.now()` reads of the source become the parameters
`current_date` (`%Y-%m-%d %H:%M:%S`), `file_ts` (`%Y%m%d_%H%M%S`, used in the
PDF filename) and `day_ts` (`%Y%m%d`, used in the embedded verification code).
`render_fails` is true when the try-block around PDF generation raises; the
source catches that exception, so the function always returns normally, and
in that case the `interview_invitation_pdf` column is simply not written. -/
def update_phase1_status (app : Application) (decision : String)
    (interview_date : Option String) (rejection_reason : Option String)
    (current_date file_ts day_ts : String) (render_fails : Bool) : Phase1Result :=
  if decision = "selected_for_interview" then
    let app1 := { app with
      phase1_status := decision,
      phase1_date := some current_date,
      interview_date := interview_date,
      workflow_phase := "phase1",
      status := statusInterviewScheduled }
    let pdf_filename := "convocation_" ++ toString app.id ++ "_" ++ file_ts ++ ".pdf"
    let verification_code := "CONV-" ++ toString app.id ++ "-" ++ day_ts
    if render_fails then
      { app := app1, docGenerated := false, embeddedCode := some verification_code }
    else
      { app := { app1 with interview_invitation_pdf := some pdf_filename },
        docGenerated := true, embeddedCode := some verification_code }
  else if decision = "rejected" then
    { app := { app with
        phase1_status := decision,
        phase1_date := some current_date,
        rejection_reason := rejection_reason,
        workflow_phase := "completed",
        status := statusRejected },
      docGenerated := false, embeddedCode := none }
  else
    { app := app, docGenerated := false, embeddedCode := none }

/-- `update_phase2_status` (`src/models.py` lines 517-553). -/
def update_phase2_status (app : Application) (decision : String)
    (rejection_reason : Option String) (current_date : String) : Application :=
  if decision = "accepted" then
    { app with
      phase2_status := some decision,
      phase2_date := some current_date,
      workflow_phase := "completed",
      status := statusAccepted }
  else if decision = "rejected" then
    { app with
      phase2_status := some decision,
      phase2_date := some current_date,
      rejection_reason := rejection_reason,
      workflow_phase := "completed",
      status := statusRejected }
  else
    app

/-! ## Document renderers (`src/pdf_generator.py`)

A rendered PDF is modelled by the interpolated candidate data it contains, in
document order (the surrounding static French prose is constant and not
load-bearing for any claim), together with the per-page overlay drawn by the
`add_qr_and_code` canvas callback.  The source installs that callback as both
`onFirstPage` and `onLaterPages`, so a single `overlay` field describes every
page of the document.  Locale formatting of the interview date (the
`strptime` with French day/month tables, which never raises thanks to its
`except` fallback) is represented by the raw date string. -/

/-- The candidate dictionary handed to the renderers; `none` models an absent
key, so `[]` access raises `KeyError` and `.get` falls back to a default. -/
structure AppData where
  id : Option Nat
  prenom : Option String
  nom : Option String
  email : Option String
  telephone : Option String
  adresse : Option String
  job_title : Option String
  selected_job_title : Option String
  deriving DecidableEq

/-- Render-time failure: a Python `KeyError` on a missing dictionary key
(the spec's `MissingFieldError`). -/
inductive PdfError where
  | keyError (key : String)
  deriving DecidableEq

/-- Python dictionary bracket access: `application_data[key]`. -/
def getKey {α : Type} (v : Option α) (key : String) : Except PdfError α :=
  match v with
  | some x => Except.ok x
  | none => Except.error (PdfError.keyError key)

/-- What the page callback draws on a page: the QR code's target URL and the
human-readable code line. -/
structure PageOverlay where
  qr_url : String
  code_text : String
  deriving DecidableEq

/-- The rendered document. -/
structure RenderedPdf where
  textContent : List String
  overlay : Option PageOverlay
  deriving DecidableEq

/-- The `add_qr_and_code` page callback (`src/pdf_generator.py` lines 313-329
and, identically, 608-624): draws the QR code for
`{base_url}/verify/{verification_code}` and the code line only when
`verification_code` is truthy (Python: neither `None` nor the empty
string). -/
def add_qr_and_code (verification_code : Option String) (base_url : String) :
    Option PageOverlay :=
  match verification_code with
  | none => none
  | some code =>
    if code = "" then none
    else
      some { qr_url := base_url ++ "/verify/" ++ code,
             code_text := "Code de vérification : " ++ code }

/-- `generate_interview_invitation_pdf` (`src/pdf_generator.py` lines 73-355).
The candidate fields of the recipient block, the salutation and the job title
are read with raising `[]` access, in source order; `selected_job_title` is
read with `.get` and, when truthy, short-circuits the `[]` read of
`job_title` (Python `or`).  `emission_day` is the `datetime.now()` read used
by the footer reference. -/
def generate_interview_invitation_pdf (application_data : AppData)
    (interview_date : String) (verification_code : Option String)
    (base_url : String) (emission_day : String) : Except PdfError RenderedPdf := do
  let prenom ← getKey application_data.prenom "prenom"
  let nom ← getKey application_data.nom "nom"
  let email ← getKey application_data.email "email"
  let telephone ← getKey application_data.telephone "telephone"
  let adresse ← getKey application_data.adresse "adresse"
  let job_title_display ←
    match application_data.selected_job_title with
    | some s => if s = "" then getKey application_data.job_title "job_title" else pure s
    | none => getKey application_data.job_title "job_title"
  let appId ← getKey application_data.id "id"
  Except.ok
    { textContent :=
        [prenom ++ " " ++ nom, email, telephone, adresse,
         "Madame, Monsieur " ++ nom ++ ",",
         job_title_display,
         interview_date,
         "Référence : CONV-" ++ toString appId ++ "-" ++ emission_day],
      overlay := add_qr_and_code verification_code base_url }

/-- `generate_acceptance_letter_pdf` (`src/pdf_generator.py` lines 379-650).
Unlike the invitation renderer, every candidate identity field is read with
`.get` and a default (`''`, or `'Djibouti'` for the address and
`'le poste proposé'` for the job title); only `id` is read with raising `[]`
access, in the footer reference. -/
def generate_acceptance_letter_pdf (application_data : AppData)
    (verification_code : Option String) (base_url : String)
    (emission_day : String) : Except PdfError RenderedPdf := do
  let prenom := application_data.prenom.getD ""
  let nom := application_data.nom.getD ""
  let adresse := application_data.adresse.getD "Djibouti"
  let email := application_data.email.getD ""
  let telephone := application_data.telephone.getD ""
  let job_title := application_data.job_title.getD "le poste proposé"
  let appId ← getKey application_data.id "id"
  Except.ok
    { textContent :=
        [prenom ++ " " ++ nom, adresse, "Email : " ++ email, "Tél : " ++ telephone,
         "Objet : Acceptation de votre candidature - " ++ job_title,
         "Madame, Monsieur " ++ nom ++ ",",
         "Référence : ACCEPT-" ++ toString appId ++ "-" ++ emission_day],
      overlay := add_qr_and_code verification_code base_url }

/-! ## Filename generation (`src/pdf_generator.py` lines 358-376 and 653-670) -/

/-- Python's `\s` character class, restricted to the Basic Latin and Latin-1
ranges (the modelled input alphabet). -/
def pyIsSpace (c : Char) : Bool :=
  c = ' ' || c = '\t' || c = '\n' || c.toNat = 13 || c.toNat = 11 || c.toNat = 12 ||
  c.toNat = 0xA0 || c.toNat = 0x1C || c.toNat = 0x1D || c.toNat = 0x1E || c.toNat = 0x1F

/-- Python's `\w` character class (alphanumerics per `str.isalnum` plus the
underscore), restricted to the Basic Latin and Latin-1 ranges: it notably
keeps accented Latin-1 letters such as `'é'` (0xE9), the ordinal and micro
signs, and the Latin-1 numeric characters. -/
def pyIsWordChar (c : Char) : Bool :=
  c.isAlphanum || c = '_' ||
  c.toNat = 0xAA || c.toNat = 0xB5 || c.toNat = 0xBA ||
  c.toNat = 0xB2 || c.toNat = 0xB3 || c.toNat = 0xB9 ||
  (0xBC ≤ c.toNat && c.toNat ≤ 0xBE) ||
  (0xC0 ≤ c.toNat && c.toNat ≤ 0xFF && c.toNat ≠ 0xD7 && c.toNat ≠ 0xF7)

/-- The characters kept by `re.sub(r'[^\w\s-]', '', name)`. -/
def keepNameChar (c : Char) : Bool := pyIsWordChar c || pyIsSpace c || c = '-'

/-- The character class `[-\s]` of the second substitution. -/
def isDashOrSpace (c : Char) : Bool := c = '-' || pyIsSpace c

/-- `re.sub(r'[-\s]+', '_', s)`: each maximal run of dashes and whitespace is
replaced by a single underscore (`inRun` records whether the previous
character belonged to such a run). -/
def collapseRunsAux : Bool → List Char → List Char
  | _, [] => []
  | inRun, c :: rest =>
    if isDashOrSpace c then
      if inRun then collapseRunsAux true rest
      else '_' :: collapseRunsAux true rest
    else c :: collapseRunsAux false rest

/-- The `clean_name` computation shared by both filename generators. -/
def clean_candidate_name (candidate_name : String) : String :=
  String.mk (collapseRunsAux false (candidate_name.toList.filter keepNameChar))

/-- `generate_interview_invitation_filename`; the `datetime.now()` timestamp
(`%Y%m%d_%H%M%S`) is an explicit parameter. -/
def generate_interview_invitation_filename (candidate_name : String)
    (application_id : Nat) (timestamp : String) : String :=
  "Convocation_Entretien_" ++ clean_candidate_name candidate_name ++ "_" ++
    toString application_id ++ "_" ++ timestamp ++ ".pdf"

/-- `generate_acceptance_letter_filename`. -/
def generate_acceptance_letter_filename (candidate_name : String)
    (application_id : Nat) (timestamp : String) : String :=
  "Lettre_Acceptation_" ++ clean_candidate_name candidate_name ++ "_" ++
    toString application_id ++ "_" ++ timestamp ++ ".pdf"

/-! ## Character-class predicates used by the claims -/

/-- The claim's code alphabet `[A-Z0-9]`. -/
def isCodeChar (c : Char) : Bool := ('A' ≤ c && c ≤ 'Z') || ('0' ≤ c && c ≤ '9')

/-- The claim's filename alphabet `[A-Za-z0-9_-]`. -/
def isFilenameSafe (c : Char) : Bool := c.isAlpha || c.isDigit || c = '_' || c = '-'

/-- Whether `needle` occurs contiguously anywhere inside `hay`. -/
def containsSub (needle hay : List Char) : Bool :=
  (List.range (hay.length + 1)).any fun i =>
    (hay.drop i).take needle.length == needle

/-! ## Concrete rows used by concrete-input theorems -/

/-- A freshly submitted application (the lifecycle's initial workflow state). -/
def appEx : Application :=
  { id := 1, prenom := "Ali", nom := "Hassan", workflow_phase := "phase1",
    phase1_status := "pending", phase1_date := none, interview_date := none,
    interview_invitation_pdf := none, phase2_status := none, phase2_date := none,
    rejection_reason := none, acceptance_letter_pdf := none, status := "en attente" }

/-- An application that reached the terminal `completed` workflow phase
through a phase-1 rejection. -/
def appDone : Application :=
  { appEx with
    workflow_phase := "completed", phase1_status := "rejected",
    status := statusRejected, rejection_reason := some "insufficient experience",
    phase1_date := some "2025-10-10 09:00:00" }

/-! ## Helper lemmas about the hex digest -/

theorem hexChar_mem (n : Nat) : hexChar n ∈ hexDigits := by
  have h : n % 16 < hexDigits.length := Nat.mod_lt _ (by decide)
  rw [hexChar, List.getD_eq_getElem _ _ h]
  exact List.getElem_mem h

theorem mem_wordHex {c : Char} {x : Nat} (h : c ∈ wordHex x) : c ∈ hexDigits := by
  simp only [wordHex, List.mem_cons, List.not_mem_nil, or_false] at h
  rcases h with rfl | rfl | rfl | rfl | rfl | rfl | rfl | rfl <;> exact hexChar_mem _

theorem mem_sha256hexChars {c : Char} {m : List Nat} (h : c ∈ sha256hexChars m) :
    c ∈ hexDigits := by
  simp only [sha256hexChars, List.mem_append] at h
  rcases h with ((((((h | h) | h) | h) | h) | h) | h) | h <;> exact mem_wordHex h

theorem length_sha256hexChars (m : List Nat) : (sha256hexChars m).length = 64 := by
  simp [sha256hexChars, wordHex]

theorem upper_hexDigit {c : Char} (h : c ∈ hexDigits) : isCodeChar c.toUpper = true := by
  have hall : hexDigits.all (fun x => isCodeChar x.toUpper) = true := by decide
  exact List.all_eq_true.1 hall c h

set_option maxRecDepth 100000 in
/-- Sanity check of the SHA-256 embedding against the FIPS 180-2 test vector
for the message "abc". -/
theorem sha256_test_vector_abc :
    sha256hex (strBytes "abc") =
      "ba7816bf8f01cfea414140de5dae2223b00361a396177a9cb410ff61f20015ad" := by
  decide


/-! ## Claims -/

/-- C1 (counterexample): the code the phase-1 `selected_for_interview`
transition embeds in the interview invitation is not a 16-character
`[A-Z0-9]` hash code.  At application id 1 on day `20251012` the transition
passes `CONV-1-20251012` to the renderer: its length is 15, not 16, and it
contains `'-'`, which is outside `[A-Z0-9]`. -/
theorem c1_counterexample_phase1_embedded_code :
    (update_phase1_status appEx "selected_for_interview" (some "2025-10-15T14:00") none
        "2025-10-12 10:00:00" "20251012_100000" "20251012" false).embeddedCode
      = some "CONV-1-20251012"
    ∧ "CONV-1-20251012".length = 15
    ∧ ¬ ("CONV-1-20251012".length = 16)
    ∧ isCodeChar '-' = false := by
  decide

/-- C1 (amended): every code produced by `generate_verification_code`
(SHA-256 of the salted data string, truncated to 16 characters and
uppercased) has length exactly 16 and all its characters in `[A-Z0-9]`
(indeed in `[0-9A-F]`); but the phase-1 `selected_for_interview` transition
does not call that generator: the code it embeds in the interview invitation
is the literal `CONV-{application_id}-{yyyymmdd}` string. -/
theorem c1_amended_verification_code_shape
    (application_id : Nat) (document_type timestamp random_salt : String)
    (app : Application) (d r : Option String) (cd f day : String) (b : Bool) :
    ((generate_verification_code application_id document_type timestamp random_salt).length = 16
     ∧ ∀ c ∈ (generate_verification_code application_id document_type timestamp
          random_salt).data, isCodeChar c = true)
    ∧ (update_phase1_status app "selected_for_interview" d r cd f day b).embeddedCode
        = some ("CONV-" ++ toString app.id ++ "-" ++ day) := by
  refine ⟨⟨?_, ?_⟩, ?_⟩
  · show (String.mk _).length = 16
    simp [String.length, List.length_take, length_sha256hexChars]
  · intro c hc
    have hc2 : c ∈ ((sha256hexChars (strBytes (verification_data application_id
        document_type timestamp random_salt))).take 16).map Char.toUpper := hc
    rcases List.mem_map.1 hc2 with ⟨c0, h0, rfl⟩
    exact upper_hexDigit (mem_sha256hexChars (List.mem_of_mem_take h0))
  · cases b <;> simp [update_phase1_status]

/-- C2: looking up a freshly issued code returns exactly the metadata bound
at issuance (matching is case-sensitive string equality), and looking up a
code held by no record of the registry returns `none` (the spec's
`NotFound`).  The registry persistence itself is modelled from the spec, the
INSERT/SELECT statements being outside `src/`. -/
theorem c2_registry_roundtrip (reg reg2 : List VerificationRecord) (code : String)
    (appId : Nat) (docType cname jtitle idate : String) (pdf : Option String)
    (h : issue_record reg code appId docType cname jtitle idate pdf = Except.ok reg2) :
    lookup_code reg2 code =
      some { verification_code := code, application_id := appId, document_type := docType,
             candidate_name := cname, job_title := jtitle, issue_date := idate,
             pdf_path := pdf, status := "valide" }
    ∧ ∀ c, (∀ r ∈ reg2, r.verification_code ≠ c) → lookup_code reg2 c = none := by
  unfold issue_record at h
  split at h
  · exact absurd h (by simp)
  · injection h with h
    subst h
    constructor
    · simp [lookup_code, List.find?]
    · intro c hc
      exact List.find?_eq_none.2 (fun r hr => by simpa using hc r hr)

/-- C2 witness at a concrete issuance over the empty registry. -/
theorem c2_registry_roundtrip_witness :
    lookup_code
      [{ verification_code := "ABCD", application_id := 1, document_type := "convocation",
         candidate_name := "Ali Hassan", job_title := "Agent",
         issue_date := "2025-10-12", pdf_path := none, status := "valide" }] "ABCD" =
      some { verification_code := "ABCD", application_id := 1,
             document_type := "convocation", candidate_name := "Ali Hassan",
             job_title := "Agent", issue_date := "2025-10-12", pdf_path := none,
             status := "valide" } :=
  (c2_registry_roundtrip []
    [{ verification_code := "ABCD", application_id := 1, document_type := "convocation",
       candidate_name := "Ali Hassan", job_title := "Agent",
       issue_date := "2025-10-12", pdf_path := none, status := "valide" }]
    "ABCD" 1 "convocation" "Ali Hassan" "Agent" "2025-10-12" none rfl).1

/-- C3: when document generation fails during a phase-1
`selected_for_interview` transition, the exception is caught inside
`update_phase1_status` (the function still returns normally) and the
already-applied state change is committed in every case, while the
`interview_invitation_pdf` column of a fresh application is left empty
exactly when generation failed. -/
theorem c3_phase1_render_failure_policy (app : Application) (d cd f day : String)
    (b : Bool) (hpdf : app.interview_invitation_pdf = none) :
    ((update_phase1_status app "selected_for_interview" (some d) none cd f day
        b).app.phase1_status = "selected_for_interview"
     ∧ (update_phase1_status app "selected_for_interview" (some d) none cd f day
        b).app.phase1_date = some cd
     ∧ (update_phase1_status app "selected_for_interview" (some d) none cd f day
        b).app.interview_date = some d
     ∧ (update_phase1_status app "selected_for_interview" (some d) none cd f day
        b).app.workflow_phase = "phase1"
     ∧ (update_phase1_status app "selected_for_interview" (some d) none cd f day
        b).app.status = statusInterviewScheduled)
    ∧ ((update_phase1_status app "selected_for_interview" (some d) none cd f day
        b).app.interview_invitation_pdf = none ↔ b = true) := by
  cases b <;> simp [update_phase1_status, hpdf]

/-- C3 witness: a concrete fresh application with a failing renderer. -/
theorem c3_phase1_render_failure_policy_witness :
    ((update_phase1_status appEx "selected_for_interview" (some "2025-10-15T14:00") none
        "2025-10-12 10:00:00" "20251012_100000" "20251012" true).app.phase1_status
        = "selected_for_interview"
     ∧ (update_phase1_status appEx "selected_for_interview" (some "2025-10-15T14:00") none
        "2025-10-12 10:00:00" "20251012_100000" "20251012" true).app.phase1_date
        = some "2025-10-12 10:00:00"
     ∧ (update_phase1_status appEx "selected_for_interview" (some "2025-10-15T14:00") none
        "2025-10-12 10:00:00" "20251012_100000" "20251012" true).app.interview_date
        = some "2025-10-15T14:00"
     ∧ (update_phase1_status appEx "selected_for_interview" (some "2025-10-15T14:00") none
        "2025-10-12 10:00:00" "20251012_100000" "20251012" true).app.workflow_phase
        = "phase1"
     ∧ (update_phase1_status appEx "selected_for_interview" (some "2025-10-15T14:00") none
        "2025-10-12 10:00:00" "20251012_100000" "20251012" true).app.status
        = statusInterviewScheduled)
    ∧ ((update_phase1_status appEx "selected_for_interview" (some "2025-10-15T14:00") none
        "2025-10-12 10:00:00" "20251012_100000" "20251012" true).app.interview_invitation_pdf
        = none ↔ true = true) :=
  c3_phase1_render_failure_policy appEx "2025-10-15T14:00" "2025-10-12 10:00:00"
    "20251012_100000" "20251012" true rfl

/-- C4: the two recognized phase-1 decisions.  `selected_for_interview` sets
`phase1_status` to that value, `interview_date` to the given datetime,
`phase1_date` to the current time, leaves `workflow_phase` at `phase1` and
sets the status to the source's "interview scheduled" literal
(`interview programmé`); `rejected` records the reason, completes the
workflow, sets the status to the source's "rejected" literal (`rejetée`),
and neither generates a document nor touches the attached-document column. -/
theorem c4_phase1_decisions (app : Application) (d reason cd f day : String) (b : Bool) :
    ((update_phase1_status app "selected_for_interview" (some d) none cd f day
        b).app.phase1_status = "selected_for_interview"
     ∧ (update_phase1_status app "selected_for_interview" (some d) none cd f day
        b).app.interview_date = some d
     ∧ (update_phase1_status app "selected_for_interview" (some d) none cd f day
        b).app.phase1_date = some cd
     ∧ (update_phase1_status app "selected_for_interview" (some d) none cd f day
        b).app.workflow_phase = "phase1"
     ∧ (update_phase1_status app "selected_for_interview" (some d) none cd f day
        b).app.status = statusInterviewScheduled)
    ∧ ((update_phase1_status app "rejected" none (some reason) cd f day
        b).app.phase1_status = "rejected"
     ∧ (update_phase1_status app "rejected" none (some reason) cd f day
        b).app.rejection_reason = some reason
     ∧ (update_phase1_status app "rejected" none (some reason) cd f day
        b).app.phase1_date = some cd
     ∧ (update_phase1_status app "rejected" none (some reason) cd f day
        b).app.workflow_phase = "completed"
     ∧ (update_phase1_status app "rejected" none (some reason) cd f day
        b).app.status = statusRejected
     ∧ (update_phase1_status app "rejected" none (some reason) cd f day
        b).docGenerated = false
     ∧ (update_phase1_status app "rejected" none (some reason) cd f day
        b).embeddedCode = none
     ∧ (update_phase1_status app "rejected" none (some reason) cd f day
        b).app.interview_invitation_pdf = app.interview_invitation_pdf) := by
  cases b <;> simp [update_phase1_status]

/-- C5 (counterexample): the state machine does admit steps out of a
completed state.  `appDone` is completed (after a phase-1 rejection), yet
`update_phase1_status` with `selected_for_interview` mutates it — it even
moves `workflow_phase` back to `phase1` — and `update_phase2_status` with
`accepted` mutates it as well. -/
theorem c5_counterexample_completed_app_mutated :
    appDone.workflow_phase = "completed"
    ∧ (update_phase1_status appDone "selected_for_interview" (some "2025-10-20T09:00") none
        "2025-10-13 09:00:00" "20251013_090000" "20251013" false).app.workflow_phase
        = "phase1"
    ∧ (update_phase1_status appDone "selected_for_interview" (some "2025-10-20T09:00") none
        "2025-10-13 09:00:00" "20251013_090000" "20251013" false).app ≠ appDone
    ∧ update_phase2_status appDone "accepted" none "2025-10-13 09:00:00" ≠ appDone := by
  decide

/-- C5 (amended): the source enforces no completed-state guard.  On an
application whose `workflow_phase` is `completed`, a recognized decision is
simply re-applied — phase-1 `selected_for_interview` resets `workflow_phase`
to `phase1`, phase-2 `accepted` overwrites the phase-2 fields — and the
fields are left unchanged only when the decision is unrecognized. -/
theorem c5_amended_no_completed_guard (app : Application) (d reason cd f day : String)
    (b : Bool) (h : app.workflow_phase = "completed") :
    ((update_phase1_status app "selected_for_interview" (some d) none cd f day
        b).app.workflow_phase = "phase1"
     ∧ (update_phase1_status app "selected_for_interview" (some d) none cd f day
        b).app.phase1_status = "selected_for_interview")
    ∧ ((update_phase2_status app "accepted" none cd).phase2_status = some "accepted"
     ∧ (update_phase2_status app "accepted" none cd).status = statusAccepted)
    ∧ ∀ d2, d2 ≠ "selected_for_interview" → d2 ≠ "rejected" →
        (update_phase1_status app d2 (some d) (some reason) cd f day b).app = app := by
  refine ⟨by cases b <;> simp [update_phase1_status], by simp [update_phase2_status], ?_⟩
  intro d2 h1 h2
  simp [update_phase1_status, h1, h2]

/-- C5 witness: the amended behaviour at the concrete completed application. -/
theorem c5_amended_no_completed_guard_witness :
    ((update_phase1_status appDone "selected_for_interview" (some "2025-10-20T09:00") none
        "2025-10-13 09:00:00" "20251013_090000" "20251013" false).app.workflow_phase
        = "phase1"
     ∧ (update_phase1_status appDone "selected_for_interview" (some "2025-10-20T09:00") none
        "2025-10-13 09:00:00" "20251013_090000" "20251013" false).app.phase1_status
        = "selected_for_interview")
    ∧ ((update_phase2_status appDone "accepted" none "2025-10-13 09:00:00").phase2_status
        = some "accepted"
     ∧ (update_phase2_status appDone "accepted" none "2025-10-13 09:00:00").status
        = statusAccepted)
    ∧ ∀ d2, d2 ≠ "selected_for_interview" → d2 ≠ "rejected" →
        (update_phase1_status appDone d2 (some "2025-10-20T09:00") (some "r")
          "2025-10-13 09:00:00" "20251013_090000" "20251013" false).app = appDone :=
  c5_amended_no_completed_guard appDone "2025-10-20T09:00" "r" "2025-10-13 09:00:00"
    "20251013_090000" "20251013" false rfl

/-- Strings with equal character lists are equal. -/
theorem string_ext {s t : String} (h : s.data = t.data) : s = t := by
  cases s; cases t; exact congrArg String.mk h

/-- C6 (counterexample): two phase-1 issuances for the same application and
document type on the same calendar day embed the SAME verification code,
`CONV-1-20251012`, even though the wall-clock times differ — the phase-1
code contains no salt at all. -/
theorem c6_counterexample_same_day_codes_equal :
    (update_phase1_status appEx "selected_for_interview" (some "2025-10-15T14:00") none
        "2025-10-12 09:00:00" "20251012_090000" "20251012" false).embeddedCode
      = (update_phase1_status appEx "selected_for_interview" (some "2025-10-16T10:00") none
          "2025-10-12 17:30:00" "20251012_173000" "20251012" false).embeddedCode
    ∧ (update_phase1_status appEx "selected_for_interview" (some "2025-10-15T14:00") none
        "2025-10-12 09:00:00" "20251012_090000" "20251012" false).embeddedCode
      = some "CONV-1-20251012" := by
  decide

/-- C6 (amended): distinctness of codes holds only for the hash-based
generator and only up to collision of the truncated hash: two calls of
`generate_verification_code` with different (equal-length) random salts hash
different input strings, which is where the salt's distinctness enters; the
code embedded by the phase-1 transition, by contrast, is deterministic in
(application id, day), so two same-day issuances produce equal codes. -/
theorem c6_amended_salted_preimages_distinct (app : Application)
    (d1 d2 r1 r2 : Option String) (cd1 cd2 f1 f2 day : String) (b1 b2 : Bool)
    (application_id : Nat) (document_type t1 t2 s1 s2 : String)
    (hlen : s1.length = s2.length) (hne : s1 ≠ s2) :
    (update_phase1_status app "selected_for_interview" d1 r1 cd1 f1 day b1).embeddedCode
      = (update_phase1_status app "selected_for_interview" d2 r2 cd2 f2 day b2).embeddedCode
    ∧ verification_data application_id document_type t1 s1
      ≠ verification_data application_id document_type t2 s2 := by
  constructor
  · cases b1 <;> cases b2 <;> simp [update_phase1_status]
  · intro h
    apply hne
    have h2 : (toString application_id ++ "-" ++ document_type ++ "-" ++ t1 ++ "-") ++ s1
        = (toString application_id ++ "-" ++ document_type ++ "-" ++ t2 ++ "-") ++ s2 := h
    have hd := congrArg String.data h2
    simp only [String.data_append] at hd
    have hl : s1.data.length = s2.data.length := hlen
    exact string_ext (List.append_inj' hd hl).2

/-- C6 witness: the amended statement at concrete distinct salts. -/
theorem c6_amended_salted_preimages_distinct_witness :
    (update_phase1_status appEx "selected_for_interview" (some "2025-10-15T14:00") none
        "2025-10-12 09:00:00" "20251012_090000" "20251012" false).embeddedCode
      = (update_phase1_status appEx "selected_for_interview" (some "2025-10-16T10:00") none
          "2025-10-12 17:30:00" "20251012_173000" "20251012" true).embeddedCode
    ∧ verification_data 1 "convocation" "2025-10-12T09:00:00" "00aa"
      ≠ verification_data 1 "convocation" "2025-10-12T09:00:00" "00ab" :=
  c6_amended_salted_preimages_distinct appEx (some "2025-10-15T14:00")
    (some "2025-10-16T10:00") none none "2025-10-12 09:00:00" "2025-10-12 17:30:00"
    "20251012_090000" "20251012_173000" "20251012" false true 1 "convocation"
    "2025-10-12T09:00:00" "2025-10-12T09:00:00" "00aa" "00ab" rfl (by decide)

/-- Candidate dictionary holding only the application id: every identity
field required by the claim is absent. -/
def dataOnlyId : AppData :=
  { id := some 1, prenom := none, nom := none, email := none, telephone := none,
    adresse := none, job_title := none, selected_job_title := none }

/-- C7: evaluation at the failing input.  With every identity field missing,
the acceptance-letter renderer does NOT fail: it substitutes empty strings
(and the `Djibouti` / `le poste proposé` defaults) and renders successfully,
whereas the interview-invitation renderer fails on the first missing
field (`prenom`), as the claim demands of both. -/
theorem c7_acceptance_letter_lenient_on_missing_fields :
    (generate_acceptance_letter_pdf dataOnlyId none "http://localhost:5000"
        "20251012")
      = Except.ok
          { textContent :=
              [" ", "Djibouti", "Email : ", "Tél : ",
               "Objet : Acceptation de votre candidature - le poste proposé",
               "Madame, Monsieur ,", "Référence : ACCEPT-1-20251012"],
            overlay := none }
    ∧ generate_interview_invitation_pdf dataOnlyId "2025-10-15T14:00" none
        "http://localhost:5000" "20251012" = Except.error (PdfError.keyError "prenom") :=
  ⟨rfl, rfl⟩

/-- C8: with a (nonempty) verification code supplied, both renderers attach
to every page — the source installs `add_qr_and_code` as both `onFirstPage`
and `onLaterPages` — an overlay holding the QR encoding of
`{base_url}/verify/{code}` and the literal code line; with no code supplied,
the overlay is absent and the code string appears nowhere (the flowable text
never mentions it). -/
theorem c8_verification_overlay (i : Nat) (p n e t a j d code base day : String)
    (hcode : code ≠ "") :
    (∃ pdf, generate_interview_invitation_pdf
        ⟨some i, some p, some n, some e, some t, some a, some j, none⟩ d (some code)
        base day = Except.ok pdf
      ∧ pdf.overlay = some { qr_url := base ++ "/verify/" ++ code,
                             code_text := "Code de vérification : " ++ code })
    ∧ (∃ pdf, generate_interview_invitation_pdf
        ⟨some i, some p, some n, some e, some t, some a, some j, none⟩ d none
        base day = Except.ok pdf ∧ pdf.overlay = none)
    ∧ (∃ pdf, generate_acceptance_letter_pdf
        ⟨some i, some p, some n, some e, some t, some a, some j, none⟩ (some code)
        base day = Except.ok pdf
      ∧ pdf.overlay = some { qr_url := base ++ "/verify/" ++ code,
                             code_text := "Code de vérification : " ++ code })
    ∧ (∃ pdf, generate_acceptance_letter_pdf
        ⟨some i, some p, some n, some e, some t, some a, some j, none⟩ none
        base day = Except.ok pdf ∧ pdf.overlay = none) := by
  refine ⟨⟨_, rfl, ?_⟩, ⟨_, rfl, ?_⟩, ⟨_, rfl, ?_⟩, ⟨_, rfl, ?_⟩⟩ <;>
    simp [add_qr_and_code, hcode]

/-- C8 witness at a concrete candidate and code. -/
theorem c8_verification_overlay_witness :
    (∃ pdf, generate_interview_invitation_pdf
        ⟨some 1, some "Ali", some "Hassan", some "ali@mail.dj", some "77112233",
         some "Rue 12", some "Agent", none⟩ "2025-10-15T14:00"
        (some "ABCD1234EF567890") "http://localhost:5000" "20251012" = Except.ok pdf
      ∧ pdf.overlay = some
          { qr_url := "http://localhost:5000" ++ "/verify/" ++ "ABCD1234EF567890",
            code_text := "Code de vérification : " ++ "ABCD1234EF567890" })
    ∧ (∃ pdf, generate_interview_invitation_pdf
        ⟨some 1, some "Ali", some "Hassan", some "ali@mail.dj", some "77112233",
         some "Rue 12", some "Agent", none⟩ "2025-10-15T14:00" none
        "http://localhost:5000" "20251012" = Except.ok pdf ∧ pdf.overlay = none)
    ∧ (∃ pdf, generate_acceptance_letter_pdf
        ⟨some 1, some "Ali", some "Hassan", some "ali@mail.dj", some "77112233",
         some "Rue 12", some "Agent", none⟩ (some "ABCD1234EF567890")
        "http://localhost:5000" "20251012" = Except.ok pdf
      ∧ pdf.overlay = some
          { qr_url := "http://localhost:5000" ++ "/verify/" ++ "ABCD1234EF567890",
            code_text := "Code de vérification : " ++ "ABCD1234EF567890" })
    ∧ (∃ pdf, generate_acceptance_letter_pdf
        ⟨some 1, some "Ali", some "Hassan", some "ali@mail.dj", some "77112233",
         some "Rue 12", some "Agent", none⟩ none
        "http://localhost:5000" "20251012" = Except.ok pdf ∧ pdf.overlay = none) :=
  c8_verification_overlay 1 "Ali" "Hassan" "ali@mail.dj" "77112233" "Rue 12" "Agent"
    "2025-10-15T14:00" "ABCD1234EF567890" "http://localhost:5000" "20251012" (by decide)

/-- Every character emitted by the run-collapsing substitution is either the
substituted underscore or a character of the input that is not in `[-\s]`. -/
theorem mem_collapseRunsAux : ∀ (l : List Char) (b : Bool) (c : Char),
    c ∈ collapseRunsAux b l → c = '_' ∨ (c ∈ l ∧ isDashOrSpace c = false) := by
  intro l
  induction l with
  | nil => intro b c h; simp [collapseRunsAux] at h
  | cons x rest ih =>
    intro b c h
    by_cases hx : isDashOrSpace x = true
    · cases b with
      | false =>
        rw [show collapseRunsAux false (x :: rest) = '_' :: collapseRunsAux true rest from by
              simp [collapseRunsAux, hx]] at h
        rcases List.mem_cons.1 h with rfl | h2
        · exact Or.inl rfl
        · rcases ih true c h2 with h3 | ⟨hm, hd⟩
          · exact Or.inl h3
          · exact Or.inr ⟨List.mem_cons_of_mem _ hm, hd⟩
      | true =>
        rw [show collapseRunsAux true (x :: rest) = collapseRunsAux true rest from by
              simp [collapseRunsAux, hx]] at h
        rcases ih true c h with h3 | ⟨hm, hd⟩
        · exact Or.inl h3
        · exact Or.inr ⟨List.mem_cons_of_mem _ hm, hd⟩
    · rw [show collapseRunsAux b (x :: rest) = x :: collapseRunsAux false rest from by
            simp [collapseRunsAux, hx]] at h
      rcases List.mem_cons.1 h with rfl | h2
      · exact Or.inr ⟨List.mem_cons_self _ _, by simpa using hx⟩
      · rcases ih false c h2 with h3 | ⟨hm, hd⟩
        · exact Or.inl h3
        · exact Or.inr ⟨List.mem_cons_of_mem _ hm, hd⟩

/-- For an ASCII candidate name, every character of the cleaned name lies in
`[A-Za-z0-9_-]` (non-ASCII word characters would survive the cleaning, which
is why the ASCII restriction is needed). -/
theorem clean_name_chars_safe (name : String)
    (hascii : ∀ c ∈ name.toList, c.toNat < 128) :
    ∀ c ∈ (clean_candidate_name name).toList, isFilenameSafe c = true := by
  intro c hc
  have hc2 : c ∈ collapseRunsAux false (name.toList.filter keepNameChar) := hc
  rcases mem_collapseRunsAux _ false c hc2 with rfl | ⟨hm, hd⟩
  · decide
  · have hk : keepNameChar c = true := List.of_mem_filter hm
    have hlt : c.toNat < 128 := hascii c (List.mem_of_mem_filter hm)
    simp only [isDashOrSpace, Bool.or_eq_false_iff, decide_eq_false_iff_not] at hd
    simp only [keepNameChar, pyIsWordChar, Bool.or_eq_true, decide_eq_true_eq,
      Bool.and_eq_true] at hk
    rcases hk with ((((((((((ha | hu) | h1) | h2) | h3) | h4) | h5) | h6) | h7) | h8) | hs) | hdash
    · simp only [isFilenameSafe, Char.isAlphanum] at ha ⊢
      simp [ha]
    · simp [isFilenameSafe, hu]
    · omega
    · omega
    · omega
    · omega
    · omega
    · omega
    · rcases h7 with ⟨h7a, h7b⟩
      omega
    · rcases h8 with ⟨⟨⟨h8a, h8b⟩, h8c⟩, h8d⟩
      omega
    · rw [hs] at hd
      exact absurd hd.2 (by decide)
    · exact absurd hdash hd.1

/-- C9 (counterexample): the filename the phase-1 transition persists is
`convocation_1_20251012_120000.pdf` — lowercase label, no candidate-name
component — and differs from the standardized filename the generator
functions would produce for that candidate; it does not even contain the
cleaned candidate name `Ali_Hassan`.  Separately, the cleaning keeps the
non-ASCII word character `'é'` (a Python `\w` character), so the filename
generated for the candidate `José` contains a character outside
`[A-Za-z0-9_-]`. -/
theorem c9_counterexample_phase1_filename :
    (update_phase1_status appEx "selected_for_interview" (some "2025-10-15T14:00") none
        "2025-10-12 12:00:00" "20251012_120000" "20251012" false).app.interview_invitation_pdf
      = some "convocation_1_20251012_120000.pdf"
    ∧ generate_interview_invitation_filename "Ali Hassan" 1 "20251012_120000"
      = "Convocation_Entretien_Ali_Hassan_1_20251012_120000.pdf"
    ∧ "convocation_1_20251012_120000.pdf"
      ≠ generate_interview_invitation_filename "Ali Hassan" 1 "20251012_120000"
    ∧ containsSub "Ali_Hassan".toList "convocation_1_20251012_120000.pdf".toList = false
    ∧ 'é' ∈ (generate_interview_invitation_filename "José" 2 "20251012_120000").toList
    ∧ isFilenameSafe 'é' = false := by
  decide

/-- C9 (amended): the two filename-generator functions do produce
`{DocumentTypeLabel}_{cleanedCandidateName}_{applicationId}_{timestamp}.pdf`,
and for ASCII candidate names every character of the cleaned name lies in
`[A-Za-z0-9_-]` (non-ASCII Python word characters survive the cleaning); but
the phase-1 transition does not use these functions: the filename it
persists on the application is `convocation_{id}_{timestamp}.pdf`, with no
candidate-name component. -/
theorem c9_amended_filename_convention (name : String) (application_id : Nat)
    (ts : String) (hascii : ∀ c ∈ name.toList, c.toNat < 128) :
    (generate_interview_invitation_filename name application_id ts
      = "Convocation_Entretien_" ++ clean_candidate_name name ++ "_" ++
          toString application_id ++ "_" ++ ts ++ ".pdf"
     ∧ generate_acceptance_letter_filename name application_id ts
      = "Lettre_Acceptation_" ++ clean_candidate_name name ++ "_" ++
          toString application_id ++ "_" ++ ts ++ ".pdf")
    ∧ (∀ c ∈ (clean_candidate_name name).toList, isFilenameSafe c = true)
    ∧ ∀ (app : Application) (d r : Option String) (cd f day : String),
        (update_phase1_status app "selected_for_interview" d r cd f day
          false).app.interview_invitation_pdf
          = some ("convocation_" ++ toString app.id ++ "_" ++ f ++ ".pdf") := by
  refine ⟨⟨rfl, rfl⟩, clean_name_chars_safe name hascii, ?_⟩
  intro app d r cd f day
  simp [update_phase1_status]

/-- C9 witness: the amended statement at a concrete ASCII candidate name. -/
theorem c9_amended_filename_convention_witness :
    (generate_interview_invitation_filename "Ali Hassan" 1 "20251012_120000"
      = "Convocation_Entretien_" ++ clean_candidate_name "Ali Hassan" ++ "_" ++
          toString 1 ++ "_" ++ "20251012_120000" ++ ".pdf"
     ∧ generate_acceptance_letter_filename "Ali Hassan" 1 "20251012_120000"
      = "Lettre_Acceptation_" ++ clean_candidate_name "Ali Hassan" ++ "_" ++
          toString 1 ++ "_" ++ "20251012_120000" ++ ".pdf")
    ∧ (∀ c ∈ (clean_candidate_name "Ali Hassan").toList, isFilenameSafe c = true)
    ∧ ∀ (app : Application) (d r : Option String) (cd f day : String),
        (update_phase1_status app "selected_for_interview" d r cd f day
          false).app.interview_invitation_pdf
          = some ("convocation_" ++ toString app.id ++ "_" ++ f ++ ".pdf") :=
  c9_amended_filename_convention "Ali Hassan" 1 "20251012_120000" (by decide)

/-- C10: an unrecognized decision string falls through both `if`/`elif`
chains: neither operation raises, and the application row is returned
untouched (no document action, no embedded code). -/
theorem c10_unrecognized_decision_noop (app : Application) (i r : Option String)
    (cd f day : String) (b : Bool) (d : String)
    (h1 : d ≠ "selected_for_interview") (h2 : d ≠ "rejected") (d2 : String)
    (h3 : d2 ≠ "accepted") (h4 : d2 ≠ "rejected") :
    update_phase1_status app d i r cd f day b
      = { app := app, docGenerated := false, embeddedCode := none }
    ∧ update_phase2_status app d2 r cd = app := by
  constructor
  · simp [update_phase1_status, h1, h2]
  · simp [update_phase2_status, h3, h4]

/-- C10 witness at the concrete unrecognized decision `"maybe"`. -/
theorem c10_unrecognized_decision_noop_witness :
    update_phase1_status appEx "maybe" (some "2025-10-15T14:00") (some "r")
        "2025-10-12 10:00:00" "20251012_100000" "20251012" false
      = { app := appEx, docGenerated := false, embeddedCode := none }
    ∧ update_phase2_status appEx "maybe" (some "r") "2025-10-12 10:00:00" = appEx :=
  c10_unrecognized_decision_noop appEx (some "2025-10-15T14:00") (some "r")
    "2025-10-12 10:00:00" "20251012_100000" "20251012" false "maybe" (by decide)
    (by decide) "maybe" (by decide) (by decide)
